import Mathlib

/-!
Verification of the CSRF middleware in `src/lib.rs` (actix-csrf).

The middleware implements double-submit-cookie CSRF protection: on a
protected request it reads a token from a cookie and a token from a
request location (a header, per the default configuration), compares
them, and either forwards the request to the inner service or rejects
it with a 400 response.

This file is a shallow embedding of the decision core: requests and
responses are records of already-materialized fields, the `HashMap` of
extractors and the whitelist `Vec` become association lists, fallible
operations return `Except`/`Option`, and the two `todo!()` panics in
the source (`generate_token` and the `CsrfError` arm of `poll`) are
modelled explicitly (`none` / a `Panic` result).
-/

namespace ActixCsrf

/-- HTTP methods, mirroring `actix_web::http::Method`: the named standard
methods plus arbitrary extension methods. -/
inductive Method where
  | GET
  | POST
  | PUT
  | DELETE
  | HEAD
  | OPTIONS
  | CONNECT
  | PATCH
  | TRACE
  | Other (s : String)
deriving DecidableEq, Repr

/-- An inbound request, reduced to the accessors the middleware consumes:
`method()`, `path()`, `cookie(name)` and `header(name)` (cookies and
headers as name/value association lists, first match wins). -/
structure ServiceRequest where
  method : Method
  path : String
  cookies : List (String × String)
  headers : List (String × String)
deriving DecidableEq, Repr

/-- An HTTP response: status code, body, and headers. -/
structure ServiceResponse where
  status : Nat
  body : String
  headers : List (String × String)
deriving DecidableEq, Repr

/-- First value bound to `name` in an association list; models
`req.cookie(name)` / single-header lookup. -/
def assocFind (l : List (String × String)) (name : String) : Option String :=
  match l with
  | [] => none
  | (k, v) :: rest => if k = name then some v else assocFind rest name

/-- The error enum `CsrfError` from src/lib.rs lines 58-66. -/
inductive CsrfError where
  | TokenDontMatch
  | MissingCookie
  | MissingToken (token : String)
deriving DecidableEq, Repr

/-- The `Display` impl for `CsrfError` (src/lib.rs lines 68-76). -/
def CsrfError.display : CsrfError → String
  | .TokenDontMatch => "The CSRF Tokens do not match"
  | .MissingCookie => "The CSRF Token is missing in the cookies"
  | .MissingToken token => "The CSRF Token is missing = " ++ token

/-- Result of `ResponseError::error_response` (src/lib.rs lines 78-85):
the handler logs the error server-side (`error!("{}", self)`) and builds
a 400 response whose body is the fixed string "CSRF Error". -/
structure ErrorResponseResult where
  log : String
  response : ServiceResponse
deriving DecidableEq, Repr

/-- The `ResponseError` impl for `CsrfError` (src/lib.rs lines 78-85). -/
def CsrfError.error_response (e : CsrfError) : ErrorResponseResult :=
  { log := e.display
    response := { status := 400, body := "CSRF Error", headers := [] } }

/-- Modelled from the spec: the `extractor` module is declared
(`pub mod extractor;`) but its source file is not part of the sources.
Per spec section 4.2, `Header(name)` returns the value of the named
header if present; absence yields `MissingToken` carrying the location
description. Only the `Header` variant is exercised by the default
configuration in src/lib.rs. -/
inductive BasicExtractor where
  | Header (name : String)
deriving DecidableEq, Repr

/-- Modelled from the spec: `extract_token` of the Header extractor
returns the named header's value, or `MissingToken(name)` when absent
(spec sections 4.2 and 7: a missing token is reported as absence). -/
def BasicExtractor.extract_token (e : BasicExtractor) (req : ServiceRequest) :
    Except CsrfError String :=
  match e with
  | .Header name =>
    match assocFind req.headers name with
    | some v => .ok v
    | none => .error (.MissingToken name)

/-- The middleware state `Inner` (src/lib.rs lines 156-173). The RNG
generator field is omitted: `generate_token` is `todo!()` so the
generator is never consulted on any reachable path. The extractor
`HashMap` is an association list, the whitelist `Vec` a list. -/
structure Inner where
  cookie_name : String
  csrf_enabled : Bool
  req_extractors : List (Method × BasicExtractor)
  whitelist : List (Method × String)
deriving DecidableEq, Repr

/-- `HashMap::insert`: replaces any existing binding for the key
(last write wins, spec section 4.2). -/
def insertExtractor (m : List (Method × BasicExtractor)) (k : Method)
    (v : BasicExtractor) : List (Method × BasicExtractor) :=
  (k, v) :: m.filter (fun p => !(p.1 = k : Bool))

/-- `HashMap::get` on the extractor registry. -/
def lookupExtractor (m : List (Method × BasicExtractor)) (k : Method) :
    Option BasicExtractor :=
  match m with
  | [] => none
  | (k', v) :: rest => if k' = k then some v else lookupExtractor rest k

/-- `Inner::default` (src/lib.rs lines 175-210): cookie name "csrfToken",
header extractors for POST, PUT and DELETE, empty whitelist, protection
enabled. -/
def Inner.default : Inner :=
  let req_extractors : List (Method × BasicExtractor) := []
  let req_extractors :=
    insertExtractor req_extractors .POST (.Header "x-csrf-token")
  let req_extractors :=
    insertExtractor req_extractors .PUT (.Header "x-csrf-token")
  let req_extractors :=
    insertExtractor req_extractors .DELETE (.Header "x-csrf-token")
  { cookie_name := "csrfToken"
    csrf_enabled := true
    req_extractors := req_extractors
    whitelist := [] }

/-- `Csrf::new()` (src/lib.rs lines 93-100) wraps `Inner::default()`. -/
def Csrf.new : Inner := Inner.default

/-- `Csrf::add_whilelist` (src/lib.rs lines 125-128): pushes the pair
onto the whitelist vector. -/
def Inner.add_whilelist (inner : Inner) (method : Method) (uri : String) :
    Inner :=
  { inner with whitelist := inner.whitelist ++ [(method, uri)] }

/-- A whitelist built from `Csrf::new()` by a sequence of
`add_whilelist` calls, one per entry of `l` in order. -/
def buildWhitelist (l : List (Method × String)) : Inner :=
  l.foldl (fun inner e => inner.add_whilelist e.1 e.2) Csrf.new

/-- The loop body of `Inner::in_whilelist` (src/lib.rs lines 222-230):
linear scan, returning true on the first entry equal to the request's
method and uri. -/
def scanWhitelist : List (Method × String) → Method → String → Bool
  | [], _, _ => false
  | (method, uri) :: rest, req_method, req_uri =>
    if method = req_method ∧ uri = req_uri then true
    else scanWhitelist rest req_method req_uri

/-- `Inner::in_whilelist` (src/lib.rs lines 222-230). -/
def Inner.in_whilelist (inner : Inner) (req_method : Method)
    (req_uri : String) : Bool :=
  scanWhitelist inner.whitelist req_method req_uri

/-- `Inner::should_protect` (src/lib.rs lines 214-220): whitelisted
requests are never protected; otherwise protection applies when the
registry has an extractor for the method and the middleware is enabled. -/
def Inner.should_protect (inner : Inner) (req : ServiceRequest) : Bool :=
  if inner.in_whilelist req.method req.path then false
  else (lookupExtractor inner.req_extractors req.method).isSome
    && inner.csrf_enabled

/-- `Inner::extract_cookie_token` (src/lib.rs lines 233-237). -/
def Inner.extract_cookie_token (inner : Inner) (req : ServiceRequest) :
    Except CsrfError String :=
  match assocFind req.cookies inner.cookie_name with
  | some v => .ok v
  | none => .error .MissingCookie

/-- `Inner::extract_request_token` (src/lib.rs lines 240-248). The source
calls `.unwrap()` on the registry lookup; `none` models that panic (no
extractor registered for the request's method). -/
def Inner.extract_request_token (inner : Inner) (req : ServiceRequest) :
    Option (Except CsrfError String) :=
  (lookupExtractor inner.req_extractors req.method).map
    (fun ex => ex.extract_token req)

/-- `Inner::generate_token` (src/lib.rs lines 252-255) is `todo!()`: it
panics on every call, modelled by `none`. -/
def Inner.generate_token (_ : Inner) : Option String := none

/-- The future returned by `CsrfMiddleware::call` (src/lib.rs lines
325-328). The downstream service is modelled as a pure function from
requests to responses, so `Passthrough` carries the downstream response
the boxed future resolves to. In the source, `CsrfError` holds the
`ServiceResponse` built by `req.error_response(e)`; building that
response emits the reason's text to the server log (the `error!` call
at src/lib.rs line 82), so the variant here carries the full
`ErrorResponseResult` — the response together with that log line —
keeping the reject reason observable exactly the way the source makes
it observable. -/
inductive CsrfMiddlewareFuture where
  | CsrfError (err : ErrorResponseResult)
  | Passthrough (resp : ServiceResponse)
deriving DecidableEq, Repr

/-- `CsrfMiddleware::call` (src/lib.rs lines 267-318). On a protected
request both tokens are extracted; a missing cookie wins over a missing
request token (the or-pattern `(Err(e), _) | (_, Err(e))` tries the
cookie side first); unequal tokens reject with `TokenDontMatch`; in
every other case the request is forwarded to the inner service and its
response is returned unchanged (the cookie-attachment block at lines
291-315 is commented out). `none` models the `unwrap` panic inside
`extract_request_token`. -/
def call (inner : Inner) (service : ServiceRequest → ServiceResponse)
    (req : ServiceRequest) : Option CsrfMiddlewareFuture :=
  if inner.should_protect req then
    match inner.extract_request_token req with
    | none => none
    | some req_token =>
      match inner.extract_cookie_token req, req_token with
      | .error e, _ => some (.CsrfError e.error_response)
      | _, .error e => some (.CsrfError e.error_response)
      | .ok cookie_token, .ok request_token =>
        if cookie_token ≠ request_token then
          some (.CsrfError CsrfError.TokenDontMatch.error_response)
        else some (.Passthrough (service req))
  else some (.Passthrough (service req))

/-- Outcome of polling a `CsrfMiddlewareFuture`. -/
inductive PollResult where
  | Panic
  | Ready (resp : ServiceResponse)
deriving DecidableEq, Repr

/-- `Future::poll` for `CsrfMiddlewareFuture` (src/lib.rs lines 336-341):
the `CsrfError` arm is `todo!()` and panics; the `Passthrough` arm polls
the inner future, which resolves to the downstream response. -/
def CsrfMiddlewareFuture.poll : CsrfMiddlewareFuture → PollResult
  | .CsrfError _ => .Panic
  | .Passthrough resp => .Ready resp

/-- Short-circuiting sequence equality, the behaviour of Rust's `String`
equality used at src/lib.rs line 281 (`cookie_token != req_token`):
lengths are compared first, then elements left to right, stopping at the
first mismatch. -/
def sliceEqSC : List Char → List Char → Bool
  | [], [] => true
  | [], _ :: _ => false
  | _ :: _, [] => false
  | a :: as, b :: bs => if a = b then sliceEqSC as bs else false

/-- Number of character comparisons `sliceEqSC` performs: zero when the
lengths already differ at the current step, otherwise one per position
up to and including the first mismatch. -/
def sliceEqCost : List Char → List Char → Nat
  | a :: as, b :: bs => (if a = b then sliceEqCost as bs else 0) + 1
  | _, _ => 0

/-- Length of the longest common prefix of two character lists. -/
def commonPrefixLen : List Char → List Char → Nat
  | a :: as, b :: bs => if a = b then commonPrefixLen as bs + 1 else 0
  | _, _ => 0

/-- Comparison cost of the token-equality check performed by `call` on
the protected path when both tokens were extracted (`none` when the
comparison at src/lib.rs line 281 is not reached). -/
def callCompareCost (inner : Inner) (req : ServiceRequest) : Option Nat :=
  if inner.should_protect req then
    match inner.extract_cookie_token req, inner.extract_request_token req with
    | .ok c, some (.ok t) => some (sliceEqCost c.data t.data)
    | _, _ => none
  else none

/-- Fixed downstream response used in concrete checks: 200, no headers. -/
def okResp : ServiceResponse := { status := 200, body := "ok", headers := [] }

/-- Downstream handler used in concrete checks: always returns `okResp`. -/
def svcOk : ServiceRequest → ServiceResponse := fun _ => okResp

/-- A plain GET request to the root path. -/
def getRootReq : ServiceRequest :=
  { method := .GET, path := "/", cookies := [], headers := [] }

/-- A POST request whose cookie token and header token agree. -/
def postMatchReq : ServiceRequest :=
  { method := .POST, path := "/"
    cookies := [("csrfToken", "tok")]
    headers := [("x-csrf-token", "tok")] }

/-- A POST request whose tokens differ in their first character. -/
def postMismatchEarlyReq : ServiceRequest :=
  { method := .POST, path := "/"
    cookies := [("csrfToken", "aXXX")]
    headers := [("x-csrf-token", "bXXX")] }

/-- A POST request whose tokens differ only in their last character. -/
def postMismatchLateReq : ServiceRequest :=
  { method := .POST, path := "/"
    cookies := [("csrfToken", "XXXa")]
    headers := [("x-csrf-token", "XXXb")] }

/-- A POST request with no cookie but a request token present. -/
def postNoCookieReq : ServiceRequest :=
  { method := .POST, path := "/"
    cookies := []
    headers := [("x-csrf-token", "tok")] }

/-- A POST request with neither cookie nor request token. -/
def postBareReq : ServiceRequest :=
  { method := .POST, path := "/", cookies := [], headers := [] }

/-- On a protected request the extractor registry has an entry for the
request's method: `should_protect` requires `contains_key` outside the
whitelist. -/
theorem lookup_isSome_of_should_protect (inner : Inner) (req : ServiceRequest)
    (hp : inner.should_protect req = true) :
    (lookupExtractor inner.req_extractors req.method).isSome = true := by
  unfold Inner.should_protect at hp
  by_cases hw : inner.in_whilelist req.method req.path = true
  · simp [hw] at hp
  · simp only [hw, if_false, Bool.and_eq_true, Bool.if_false_left] at hp
    exact hp.2.1

/-- On a protected request, `extract_request_token` does not panic. -/
theorem extract_request_token_some_of_should_protect (inner : Inner)
    (req : ServiceRequest) (hp : inner.should_protect req = true) :
    ∃ rt, inner.extract_request_token req = some rt := by
  have h := lookup_isSome_of_should_protect inner req hp
  unfold Inner.extract_request_token
  cases hl : lookupExtractor inner.req_extractors req.method with
  | none => rw [hl] at h; simp at h
  | some ex => exact ⟨ex.extract_token req, by simp [hl]⟩

/-- Short-circuiting equality computes exactly list equality. -/
theorem sliceEqSC_eq_decide (a b : List Char) :
    sliceEqSC a b = decide (a = b) := by
  induction a generalizing b with
  | nil => cases b <;> simp [sliceEqSC]
  | cons x as ih =>
    cases b with
    | nil => simp [sliceEqSC]
    | cons y bs =>
      by_cases hxy : x = y
      · subst hxy; simp [sliceEqSC, ih]
      · simp [sliceEqSC, hxy]

/-- On same-length unequal inputs, the short-circuiting comparison stops
right after the first mismatch: its cost is the common-prefix length
plus one. -/
theorem sliceEqCost_eq_prefix_succ (a : List Char) :
    ∀ b : List Char, a.length = b.length → a ≠ b →
      sliceEqCost a b = commonPrefixLen a b + 1 := by
  induction a with
  | nil =>
    intro b hlen hne
    cases b with
    | nil => exact absurd rfl hne
    | cons y bs => simp at hlen
  | cons x as ih =>
    intro b hlen hne
    cases b with
    | nil => simp at hlen
    | cons y bs =>
      simp only [List.length_cons, Nat.add_right_cancel_iff] at hlen
      by_cases hxy : x = y
      · subst hxy
        have hne' : as ≠ bs := by
          intro h; exact hne (by rw [h])
        simp [sliceEqCost, commonPrefixLen, ih bs hlen hne']
      · simp [sliceEqCost, commonPrefixLen, hxy]

/-- Linear whitelist scan over an appended list. -/
theorem scanWhitelist_append (l1 l2 : List (Method × String)) (m : Method)
    (p : String) :
    scanWhitelist (l1 ++ l2) m p =
      (scanWhitelist l1 m p || scanWhitelist l2 m p) := by
  induction l1 with
  | nil => simp [scanWhitelist]
  | cons e rest ih =>
    obtain ⟨em, ep⟩ := e
    by_cases h : em = m ∧ ep = p <;> simp [scanWhitelist, h, ih]

/-- The linear whitelist scan decides membership. -/
theorem scanWhitelist_eq_mem (wl : List (Method × String)) (m : Method)
    (p : String) : scanWhitelist wl m p = true ↔ (m, p) ∈ wl := by
  induction wl with
  | nil => simp [scanWhitelist]
  | cons e rest ih =>
    obtain ⟨em, ep⟩ := e
    by_cases h : em = m ∧ ep = p
    · obtain ⟨rfl, rfl⟩ := h
      simp [scanWhitelist]
    · simp only [scanWhitelist, if_neg h, ih, List.mem_cons]
      constructor
      · exact Or.inr
      · rintro (hpair | hmem)
        · exact absurd ⟨(Prod.mk.injEq .. ▸ hpair).1.symm,
            (Prod.mk.injEq .. ▸ hpair).2.symm⟩ h
        · exact hmem

/-- The whitelist of a configuration built by successive `add_whilelist`
calls is exactly the list of added entries, in order. -/
theorem buildWhitelist_whitelist (l : List (Method × String)) :
    (buildWhitelist l).whitelist = l := by
  have h : ∀ (l : List (Method × String)) (inner : Inner),
      (l.foldl (fun i e => i.add_whilelist e.1 e.2) inner).whitelist =
        inner.whitelist ++ l := by
    intro l
    induction l with
    | nil => intro inner; simp
    | cons e rest ih =>
      intro inner
      rw [List.foldl_cons, ih]
      simp [Inner.add_whilelist]
  simp [buildWhitelist, h, Csrf.new, Inner.default]

/-- A string differs from `p ++ loc` for every `loc` when it already
disagrees with `p` at an index inside `p`. -/
theorem ne_of_append_disagree (s p loc : String) (i : Nat)
    (hi : i < p.data.length)
    (hne : s.data[i]? ≠ p.data[i]?) :
    s ≠ p ++ loc := by
  intro h
  apply hne
  have hdata : s.data = p.data ++ loc.data := by
    rw [h, String.data_append]
  rw [hdata, List.getElem?_append_left hi]

/-- The error result of `MissingCookie` differs from the error result
of every `MissingToken` location: their log lines disagree at index 26
('i' versus '='), whatever the location text is. -/
theorem missingCookie_ne_missingToken (loc : String) :
    CsrfError.MissingCookie.error_response ≠
      (CsrfError.MissingToken loc).error_response := by
  intro h
  exact ne_of_append_disagree "The CSRF Token is missing in the cookies"
    "The CSRF Token is missing = " loc 26 (by decide) (by decide)
    (congrArg ErrorResponseResult.log h)

/-- The error result of `TokenDontMatch` differs from the error result
of every `MissingToken` location: their log lines disagree at index 14
('s' versus ' '), whatever the location text is. -/
theorem tokenDontMatch_ne_missingToken (loc : String) :
    CsrfError.TokenDontMatch.error_response ≠
      (CsrfError.MissingToken loc).error_response := by
  intro h
  exact ne_of_append_disagree "The CSRF Tokens do not match"
    "The CSRF Token is missing = " loc 14 (by decide) (by decide)
    (congrArg ErrorResponseResult.log h)

/-- C1: on a protected request where both the cookie token and the
request token are present, `call` forwards the request to the inner
service when the two token strings are identical, and when they differ
it rejects with reason `TokenDontMatch` (the code's name for the
TokenMismatch reason): the error result it carries is TokenDontMatch's,
which is distinct from the error result of every other reject reason. -/
theorem C1_token_comparison_decides (inner : Inner)
    (service : ServiceRequest → ServiceResponse) (req : ServiceRequest)
    (c t : String)
    (hp : inner.should_protect req = true)
    (hc : inner.extract_cookie_token req = .ok c)
    (ht : inner.extract_request_token req = some (.ok t)) :
    (c = t →
      call inner service req =
        some (.Passthrough (service req))) ∧
    (c ≠ t →
      call inner service req =
        some (.CsrfError CsrfError.TokenDontMatch.error_response)) ∧
    CsrfError.TokenDontMatch.error_response ≠
      CsrfError.MissingCookie.error_response ∧
    ∀ loc, CsrfError.TokenDontMatch.error_response ≠
      (CsrfError.MissingToken loc).error_response := by
  refine ⟨?_, ?_, ?_, tokenDontMatch_ne_missingToken⟩
  · intro hct
    subst hct
    simp [call, hp, ht, hc]
  · intro hct
    simp [call, hp, ht, hc, hct]
  · intro h
    exact absurd (congrArg ErrorResponseResult.log h) (by decide)

/-- Witness for C1: the default configuration allows a POST with equal
tokens and rejects one with differing tokens, carrying an error result
distinct from the concrete MissingToken alternative. -/
theorem C1_token_comparison_decides_witness :
    call Inner.default svcOk postMatchReq =
      some (.Passthrough (svcOk postMatchReq)) ∧
    call Inner.default svcOk postMismatchEarlyReq =
      some (.CsrfError CsrfError.TokenDontMatch.error_response) ∧
    CsrfError.TokenDontMatch.error_response ≠
      (CsrfError.MissingToken "x-csrf-token").error_response :=
  ⟨(C1_token_comparison_decides Inner.default svcOk postMatchReq "tok" "tok"
      (by decide) rfl rfl).1 rfl,
   (C1_token_comparison_decides Inner.default svcOk postMismatchEarlyReq
      "aXXX" "bXXX" (by decide) rfl rfl).2.1 (by decide),
   (C1_token_comparison_decides Inner.default svcOk postMismatchEarlyReq
      "aXXX" "bXXX" (by decide) rfl rfl).2.2.2 "x-csrf-token"⟩

/-- C4: on a protected request whose configured cookie is absent, `call`
rejects with reason `MissingCookie`, with no constraint on the request
token (present, absent, or anything else): the cookie check takes
precedence over the request-token check. The carried error result is
MissingCookie's, and it is distinct from the error result of every
other reject reason — in particular from every `MissingToken` location,
so the request-token check provably did not decide the outcome. -/
theorem C4_missing_cookie_precedence (inner : Inner)
    (service : ServiceRequest → ServiceResponse) (req : ServiceRequest)
    (hp : inner.should_protect req = true)
    (hc : assocFind req.cookies inner.cookie_name = none) :
    call inner service req =
      some (.CsrfError CsrfError.MissingCookie.error_response) ∧
    CsrfError.MissingCookie.error_response ≠
      CsrfError.TokenDontMatch.error_response ∧
    ∀ loc, CsrfError.MissingCookie.error_response ≠
      (CsrfError.MissingToken loc).error_response := by
  obtain ⟨rt, ht⟩ := extract_request_token_some_of_should_protect inner req hp
  have hc' : inner.extract_cookie_token req = .error .MissingCookie := by
    simp [Inner.extract_cookie_token, hc]
  refine ⟨?_, ?_, missingCookie_ne_missingToken⟩
  · cases rt <;> simp [call, hp, ht, hc']
  · intro h
    exact absurd (congrArg ErrorResponseResult.log h) (by decide)

/-- Witness for C4: with the default configuration, a POST with no
cookie is rejected with `MissingCookie` both when a request token is
present and when it is absent, and MissingCookie's error result differs
from the one the request-token check would have produced. -/
theorem C4_missing_cookie_precedence_witness :
    call Inner.default svcOk postNoCookieReq =
      some (.CsrfError CsrfError.MissingCookie.error_response) ∧
    call Inner.default svcOk postBareReq =
      some (.CsrfError CsrfError.MissingCookie.error_response) ∧
    CsrfError.MissingCookie.error_response ≠
      (CsrfError.MissingToken "x-csrf-token").error_response :=
  ⟨(C4_missing_cookie_precedence Inner.default svcOk postNoCookieReq
      (by decide) (by decide)).1,
   (C4_missing_cookie_precedence Inner.default svcOk postBareReq
      (by decide) (by decide)).1,
   (C4_missing_cookie_precedence Inner.default svcOk postBareReq
      (by decide) (by decide)).2.2 "x-csrf-token"⟩

/-- C5: when the middleware is disabled, or the (method, path) pair is
whitelisted, or no extractor is registered for the method, the request
is not protected and `call` forwards it unchanged to the inner service,
whatever the cookies and headers hold. -/
theorem C5_unprotected_always_allow (inner : Inner)
    (service : ServiceRequest → ServiceResponse) (req : ServiceRequest)
    (h : inner.csrf_enabled = false ∨
      inner.in_whilelist req.method req.path = true ∨
      lookupExtractor inner.req_extractors req.method = none) :
    inner.should_protect req = false ∧
    call inner service req = some (.Passthrough (service req)) := by
  have hsp : inner.should_protect req = false := by
    unfold Inner.should_protect
    rcases h with h | h | h
    · by_cases hw : inner.in_whilelist req.method req.path = true <;>
        simp [hw, h]
    · simp [h]
    · by_cases hw : inner.in_whilelist req.method req.path = true <;>
        simp [hw, h]
  exact ⟨hsp, by simp [call, hsp]⟩

/-- Witness for C5: a bare POST is allowed when protection is disabled,
when (POST, "/") is whitelisted, and (as a GET) when no extractor is
registered for the method. -/
theorem C5_unprotected_always_allow_witness :
    ({ Inner.default with csrf_enabled := false }.should_protect postBareReq
        = false ∧
      call { Inner.default with csrf_enabled := false } svcOk postBareReq =
        some (.Passthrough (svcOk postBareReq))) ∧
    ((Csrf.new.add_whilelist .POST "/").should_protect postBareReq = false ∧
      call (Csrf.new.add_whilelist .POST "/") svcOk postBareReq =
        some (.Passthrough (svcOk postBareReq))) ∧
    (Inner.default.should_protect getRootReq = false ∧
      call Inner.default svcOk getRootReq =
        some (.Passthrough (svcOk getRootReq))) :=
  ⟨C5_unprotected_always_allow _ svcOk postBareReq (Or.inl (by decide)),
   C5_unprotected_always_allow _ svcOk postBareReq (Or.inr (Or.inl (by decide))),
   C5_unprotected_always_allow _ svcOk getRootReq (Or.inr (Or.inr (by decide)))⟩

/-- C10: whenever `should_protect` returns true, the extractor registry
has an entry for the request's method, so the lookup inside
`extract_request_token` yields `some` and the source's `unwrap` cannot
panic. -/
theorem C10_protected_has_extractor (inner : Inner) (req : ServiceRequest)
    (hp : inner.should_protect req = true) :
    (lookupExtractor inner.req_extractors req.method).isSome = true ∧
    (inner.extract_request_token req).isSome = true := by
  refine ⟨lookup_isSome_of_should_protect inner req hp, ?_⟩
  obtain ⟨rt, ht⟩ := extract_request_token_some_of_should_protect inner req hp
  simp [ht]

/-- Witness for C10: a protected POST under the default configuration
has a registered extractor and a non-panicking token extraction. -/
theorem C10_protected_has_extractor_witness :
    (lookupExtractor Inner.default.req_extractors postBareReq.method).isSome
      = true ∧
    (Inner.default.extract_request_token postBareReq).isSome = true :=
  C10_protected_has_extractor Inner.default postBareReq (by decide)

/-- C2 counterexample: the token comparison the code performs is not
constant time. Two protected requests whose cookie and header tokens
all have the same length are both rejected with `TokenDontMatch`, yet
the comparison at src/lib.rs line 281 performs 1 character comparison
when the first characters differ and 4 when only the last characters
differ: the work depends on the position of the first mismatch. -/
theorem C2_not_constant_time_counterexample :
    call Inner.default svcOk postMismatchEarlyReq =
      some (.CsrfError CsrfError.TokenDontMatch.error_response) ∧
    call Inner.default svcOk postMismatchLateReq =
      some (.CsrfError CsrfError.TokenDontMatch.error_response) ∧
    ("aXXX" : String).length = ("XXXa" : String).length ∧
    ("bXXX" : String).length = ("XXXb" : String).length ∧
    callCompareCost Inner.default postMismatchEarlyReq = some 1 ∧
    callCompareCost Inner.default postMismatchLateReq = some 4 := by
  refine ⟨rfl, rfl, by decide, by decide, by decide, by decide⟩

/-- C2 (amended): the equality comparison of the cookie token and the
request token is Rust's plain short-circuiting string equality: it
returns exactly byte-identity, but on same-length unequal tokens it
performs a number of character comparisons equal to the common-prefix
length plus one, so the work varies with the position of the first
differing byte (it is not constant time). -/
theorem C2_short_circuit_equality (a b : List Char)
    (hlen : a.length = b.length) (hne : a ≠ b) :
    sliceEqSC a b = decide (a = b) ∧
    sliceEqSC a b = false ∧
    sliceEqCost a b = commonPrefixLen a b + 1 := by
  refine ⟨sliceEqSC_eq_decide a b, ?_, sliceEqCost_eq_prefix_succ a b hlen hne⟩
  rw [sliceEqSC_eq_decide]
  simp [hne]

/-- Witness for the amended C2, at the token pair of
`postMismatchLateReq`: equality is false and the cost is the 3-character
common prefix plus one. -/
theorem C2_short_circuit_equality_witness :
    sliceEqSC ("XXXa" : String).data ("XXXb" : String).data = false ∧
    sliceEqCost ("XXXa" : String).data ("XXXb" : String).data =
      commonPrefixLen ("XXXa" : String).data ("XXXb" : String).data + 1 :=
  ⟨(C2_short_circuit_equality ("XXXa" : String).data ("XXXb" : String).data
      (by decide) (by decide)).2.1,
   (C2_short_circuit_equality ("XXXa" : String).data ("XXXb" : String).data
      (by decide) (by decide)).2.2⟩

/-- C3: the code never attaches a `Set-Cookie` header. With the default
(enabled) configuration, an allowed GET whose downstream handler
succeeds is returned with the downstream response unchanged — its
header list stays empty — and `generate_token` panics (`todo!()`), so
no fresh token can ever be minted. The token-attachment block at
src/lib.rs lines 291-315 is commented out, contradicting the module's
own tests (`test_attach_token`). -/
theorem C3_no_set_cookie_attached :
    Inner.default.csrf_enabled = true ∧
    Inner.default.generate_token = none ∧
    call Inner.default svcOk getRootReq = some (.Passthrough okResp) ∧
    okResp.headers = [] := by
  exact ⟨rfl, rfl, rfl, rfl⟩

/-- C6: for every reject reason, `error_response` logs the reason's
textual detail server-side and produces a response with HTTP status 400
whose body is the fixed generic string "CSRF Error", which does not
contain the reason's text. -/
theorem C6_reject_response_generic (e : CsrfError) :
    e.error_response.response.status = 400 ∧
    e.error_response.response.body = "CSRF Error" ∧
    e.error_response.log = e.display ∧
    ¬ List.IsInfix e.display.data e.error_response.response.body.data := by
  refine ⟨rfl, rfl, rfl, ?_⟩
  intro hinf
  have hle := hinf.length_le
  cases e with
  | TokenDontMatch =>
    simp only [CsrfError.display, CsrfError.error_response] at hle
    exact absurd hle (by decide)
  | MissingCookie =>
    simp only [CsrfError.display, CsrfError.error_response] at hle
    exact absurd hle (by decide)
  | MissingToken t =>
    simp only [CsrfError.display, CsrfError.error_response] at hle
    rw [String.data_append, List.length_append] at hle
    simp at hle
    omega

/-- Witness for C6 at the `MissingCookie` reason. -/
theorem C6_reject_response_generic_witness :
    CsrfError.MissingCookie.error_response.response.status = 400 ∧
    CsrfError.MissingCookie.error_response.response.body = "CSRF Error" ∧
    CsrfError.MissingCookie.error_response.log =
      CsrfError.MissingCookie.display ∧
    ¬ List.IsInfix CsrfError.MissingCookie.display.data
      CsrfError.MissingCookie.error_response.response.body.data :=
  C6_reject_response_generic CsrfError.MissingCookie

/-- C7: on a protected request that fails the CSRF check in any of the
three ways (missing cookie, missing request token, token mismatch),
`call` returns the `CsrfError` variant of the middleware future, and
polling that future panics (the arm at src/lib.rs line 338 is
`todo!()`), so a rejected request never resolves to a response value. -/
theorem C7_reject_future_panics (inner : Inner)
    (service : ServiceRequest → ServiceResponse) (req : ServiceRequest)
    (e : CsrfError)
    (hp : inner.should_protect req = true)
    (hfail :
      inner.extract_cookie_token req = .error e ∨
      (∃ c, inner.extract_cookie_token req = .ok c ∧
        inner.extract_request_token req = some (.error e)) ∨
      (e = CsrfError.TokenDontMatch ∧ ∃ c t,
        inner.extract_cookie_token req = .ok c ∧
        inner.extract_request_token req = some (.ok t) ∧ c ≠ t)) :
    call inner service req = some (.CsrfError e.error_response) ∧
    CsrfMiddlewareFuture.poll (.CsrfError e.error_response) =
      .Panic := by
  refine ⟨?_, rfl⟩
  rcases hfail with hc | ⟨c, hc, ht⟩ | ⟨he, c, t, hc, ht, hct⟩
  · obtain ⟨rt, ht⟩ := extract_request_token_some_of_should_protect inner req hp
    cases rt <;> simp [call, hp, ht, hc]
  · simp [call, hp, ht, hc]
  · subst he
    simp [call, hp, ht, hc, hct]

/-- Witness for C7: a bare POST under the default configuration fails
with `MissingCookie`; the returned future is the `CsrfError` variant
and polling it panics. -/
theorem C7_reject_future_panics_witness :
    call Inner.default svcOk postBareReq =
      some (.CsrfError CsrfError.MissingCookie.error_response) ∧
    CsrfMiddlewareFuture.poll
      (.CsrfError CsrfError.MissingCookie.error_response) =
        .Panic :=
  C7_reject_future_panics Inner.default svcOk postBareReq
    CsrfError.MissingCookie (by decide) (Or.inl rfl)

/-- C8: `Csrf::new()` registers exactly POST, PUT and DELETE, each with
a header extractor for "x-csrf-token", leaves every other method
unregistered, sets the cookie name to "csrfToken", enables protection,
and starts with an empty whitelist. -/
theorem C8_default_configuration :
    Csrf.new.cookie_name = "csrfToken" ∧
    Csrf.new.csrf_enabled = true ∧
    Csrf.new.whitelist = [] ∧
    ∀ m : Method, lookupExtractor Csrf.new.req_extractors m =
      if m = .POST ∨ m = .PUT ∨ m = .DELETE
      then some (.Header "x-csrf-token") else none := by
  refine ⟨rfl, rfl, rfl, ?_⟩
  intro m
  cases m <;> simp [Csrf.new, Inner.default, insertExtractor, lookupExtractor]

/-- C9: for a whitelist built by any sequence of `add_whilelist` calls,
`in_whilelist` returns true exactly when some added entry equals the
queried (method, path) pair under exact equality on both fields, and
appending a duplicate of an already-present entry changes no
`in_whilelist` result. -/
theorem C9_whitelist_exact_membership (l : List (Method × String))
    (m : Method) (p : String) :
    ((buildWhitelist l).in_whilelist m p = true ↔ (m, p) ∈ l) ∧
    (∀ m0 p0, (m0, p0) ∈ l →
      (buildWhitelist (l ++ [(m0, p0)])).in_whilelist m p =
        (buildWhitelist l).in_whilelist m p) := by
  constructor
  · rw [Inner.in_whilelist, buildWhitelist_whitelist]
    exact scanWhitelist_eq_mem l m p
  · intro m0 p0 hmem
    rw [Inner.in_whilelist, Inner.in_whilelist, buildWhitelist_whitelist,
      buildWhitelist_whitelist, scanWhitelist_append]
    by_cases heq : m0 = m ∧ p0 = p
    · obtain ⟨rfl, rfl⟩ := heq
      have hl : scanWhitelist l m0 p0 = true :=
        (scanWhitelist_eq_mem l m0 p0).mpr hmem
      simp [hl]
    · have hs : scanWhitelist [(m0, p0)] m p = false := by
        simp [scanWhitelist, heq]
      simp [hs]

/-- Witness for C9: with the single added entry (POST, "/"), the query
(POST, "/") is contained, and appending the duplicate entry leaves the
result of a different query unchanged. -/
theorem C9_whitelist_exact_membership_witness :
    (buildWhitelist [(Method.POST, "/")]).in_whilelist Method.POST "/"
      = true ∧
    Inner.in_whilelist
        (buildWhitelist ([(Method.POST, "/")] ++ [(Method.POST, "/")]))
        Method.GET "/x" =
      (buildWhitelist [(Method.POST, "/")]).in_whilelist Method.GET "/x" :=
  ⟨(C9_whitelist_exact_membership [(Method.POST, "/")] Method.POST "/").1.mpr
      (by decide),
   (C9_whitelist_exact_membership [(Method.POST, "/")] Method.GET "/x").2
      Method.POST "/" (by decide)⟩

end ActixCsrf
